import Mathlib

/-!
# Jamulus server control plane

A shallow embedding of two translation units of the Jamulus server:

* `serverrpc.cpp`: the JSON-RPC handlers registered by the constructor of
  `CServerRpc`, and `CServerRpc::SerializeRegistrationStatus`;
* `serverlogging.cpp`: the event logger `CServerLogging`.

Qt value types are modelled by plain data: a `QString` is a `String`, a
`QJsonValue` is a tree, a `QJsonObject` is an association list.  The server
object the handlers talk to (`CServer`, its socket) is not part of these two
files; it is an interface record over an arbitrary state type, so every
statement about a handler holds for every implementation of the server.
-/

namespace Jamulus

/-! ## Qt JSON values -/

/-- A `QJsonValue`.  JSON numbers are stored by Qt as `double`; the finite
doubles are rationals, and a JSON text cannot denote an infinity or a NaN,
so the payload of `double` is a rational number. -/
inductive QJsonValue where
  | null
  | bool (b : Bool)
  | double (d : ℚ)
  | string (s : String)
  | array (a : List QJsonValue)
  | object (o : List (String × QJsonValue))
  | undefined

/-- A `QJsonObject`: keys with their values. -/
abbrev QJsonObject := List (String × QJsonValue)

namespace QJsonValue

/-- `QJsonValue::isString`. -/
def isString : QJsonValue → Bool
  | string _ => true
  | _ => false

/-- `QJsonValue::isArray`. -/
def isArray : QJsonValue → Bool
  | array _ => true
  | _ => false

/-- `QJsonValue::isDouble`. -/
def isDouble : QJsonValue → Bool
  | double _ => true
  | _ => false

/-- `QJsonValue::toString`: the string held, or the null string. -/
def toQString : QJsonValue → String
  | string s => s
  | _ => ""

/-- `QJsonValue::toArray`: the array held, or the empty array. -/
def toArray : QJsonValue → List QJsonValue
  | array a => a
  | _ => []

/-- `QJsonValue::toInt ( defaultValue )` as Qt documents it: the value when it
is a number that is whole and fits a 32-bit `int`, the default otherwise. -/
def toInt (v : QJsonValue) (defaultValue : Int) : Int :=
  match v with
  | double d =>
      if d.den = 1 ∧ -2147483648 ≤ d.num ∧ d.num ≤ 2147483647 then d.num else defaultValue
  | _ => defaultValue

/-- `QJsonValue ( int )`. -/
def ofInt (n : Int) : QJsonValue := double n

/-- `QJsonArray::fromStringList`. -/
def fromStringList (l : List String) : QJsonValue := array (l.map string)

end QJsonValue

namespace QJsonObject

/-- `QJsonObject::operator[] ( key ) const`: the value stored under `key`,
`Undefined` when the key is absent. -/
def value (o : QJsonObject) (key : String) : QJsonValue :=
  match o.lookup key with
  | some v => v
  | none => QJsonValue.undefined

/-- `QJsonObject::contains`. -/
def contains (o : QJsonObject) (key : String) : Bool :=
  o.any (fun p => p.1 == key)

/-- The assignment `o[key] = v`: the entry for `key` is created or replaced. -/
def set (o : QJsonObject) (key : String) (v : QJsonValue) : QJsonObject :=
  (key, v) :: o.filter (fun p => !(p.1 == key))

end QJsonObject

/-! ## Addresses and channel data -/

/-- A `QHostAddress`: an IPv4 address (a `quint32`), an IPv6 address, or the
null address.  `operator==` is the strict comparison, that is, equality of
this data. -/
inductive QHostAddress where
  | IPv4 (a : Nat)
  | IPv6 (a : Nat)
  | Null
  deriving DecidableEq, Repr

/-- `CHostAddress`: an internet address and a port. -/
structure CHostAddress where
  InetAddr : QHostAddress
  iPort : Nat
  deriving DecidableEq, Repr

instance : Inhabited CHostAddress := ⟨⟨QHostAddress.Null, 0⟩⟩

/-- `CChannelCoreInfo`: the fields read by the handlers. -/
structure CChannelCoreInfo where
  iInstrument : Int
  strCity : String
  eCountry : Int
  eSkillLevel : Int
  deriving DecidableEq, Repr

instance : Inhabited CChannelCoreInfo := ⟨⟨0, "", 0, 0⟩⟩

/-- `CVector<T>::operator[]`. -/
def CVector.at {α : Type} [Inhabited α] (v : List α) (i : Nat) : α := v.getD i default

/-- The five vectors filled by `CServer::GetConCliParam`. -/
structure ConCliParam where
  vecHostAddresses : List CHostAddress
  vecsName : List String
  veciJitBufNumFrames : List Int
  veciNetwFrameSizeFact : List Int
  vecChanInfo : List CChannelCoreInfo

/-! ## The collaborators of `CServerRpc` -/

/-- The interface of the server object used by the handlers: the methods of
`CServer` and of its socket object (`GetSocketObject()`), over a state `σ`.
A method that changes the server maps a state to the next state; a getter
reads the state. -/
structure CServer (σ : Type) where
  fwAdd : String → σ → σ
  fwRemove : String → σ → σ
  fwSetMode : Int → σ → σ
  fwReset : σ → σ
  fwGetMode : σ → Int
  fwGetAddresses : σ → List String
  GetRecorderInitialised : σ → Bool
  GetRecorderErrMsg : σ → String
  GetRecordingEnabled : σ → Bool
  GetRecordingDir : σ → String
  GetConCliParam : σ → ConCliParam
  GetClientNumAudioChannels : σ → Nat → Int
  GetDirectoryType : σ → Int
  GetDirectoryAddress : σ → String
  GetServerName : σ → String
  GetServerCity : σ → String
  GetServerCountry : σ → Int
  GetWelcomeMessage : σ → String
  GetSvrRegStatus : σ → Int
  SetServerName : String → σ → σ
  SetWelcomeMessage : String → σ → σ
  SetRecordingDir : String → σ → σ
  SetEnableRecording : Bool → σ → σ
  RequestNewRecording : σ → σ

/-- The enumerators of `ESvrRegStatus` (declared in a header outside these two
files): their integer values. -/
structure ESvrRegStatus where
  SRS_NOT_REGISTERED : Int
  SRS_BAD_ADDRESS : Int
  SRS_REQUESTED : Int
  SRS_TIME_OUT : Int
  SRS_UNKNOWN_RESP : Int
  SRS_REGISTERED : Int
  SRS_SERVER_LIST_FULL : Int
  SRS_VERSION_TOO_OLD : Int
  SRS_NOT_FULFILL_REQUIREMENTS : Int

/-- The enumerator values as a list, in declaration order.  The `case` labels
of one `switch` are pairwise distinct, so this list has no duplicate. -/
def ESvrRegStatus.values (E : ESvrRegStatus) : List Int :=
  [E.SRS_NOT_REGISTERED, E.SRS_BAD_ADDRESS, E.SRS_REQUESTED, E.SRS_TIME_OUT, E.SRS_UNKNOWN_RESP,
   E.SRS_REGISTERED, E.SRS_SERVER_LIST_FULL, E.SRS_VERSION_TOO_OLD, E.SRS_NOT_FULFILL_REQUIREMENTS]

/-- Free functions and constants the handlers use that are declared outside
these two files. -/
structure Externals where
  toString : CHostAddress → String
  GetName : Int → String
  countryToString : Int → String
  SkillLevelToString : Int → String
  GetDirectoryAddress : Int → String → String
  AT_NONE : Int
  E : ESvrRegStatus

/-- Modelled from the spec: `CRpcServer::iErrInvalidParams`, declared outside
these two files; the spec fixes `InvalidParams = -32602`. -/
def iErrInvalidParams : Int := -32602

/-- Modelled from the spec: `CRpcServer::CreateJsonRpcError`, defined outside
these two files; the spec gives an error the shape
`{ code: integer, message: string }`. -/
def CreateJsonRpcError (code : Int) (message : String) : QJsonValue :=
  QJsonValue.object [("code", QJsonValue.ofInt code), ("message", QJsonValue.string message)]

/-- A handler as registered with `CRpcServer::HandleMethod`: from the request's
`params`, the `response` object it writes to and the server, to the response
and the server after the call. -/
abbrev Handler (σ : Type) := QJsonObject → QJsonObject → σ → QJsonObject × σ

namespace CServerRpc

open QJsonValue

/-- `CServerRpc::SerializeRegistrationStatus`. -/
def SerializeRegistrationStatus (E : ESvrRegStatus) (eSvrRegStatus : Int) : QJsonValue :=
  if eSvrRegStatus = E.SRS_NOT_REGISTERED then string "not_registered"
  else if eSvrRegStatus = E.SRS_BAD_ADDRESS then string "bad_address"
  else if eSvrRegStatus = E.SRS_REQUESTED then string "requested"
  else if eSvrRegStatus = E.SRS_TIME_OUT then string "time_out"
  else if eSvrRegStatus = E.SRS_UNKNOWN_RESP then string "unknown_resp"
  else if eSvrRegStatus = E.SRS_REGISTERED then string "registered"
  else if eSvrRegStatus = E.SRS_SERVER_LIST_FULL then string "directory_server_full"
  else if eSvrRegStatus = E.SRS_VERSION_TOO_OLD then string "server_version_too_old"
  else if eSvrRegStatus = E.SRS_NOT_FULFILL_REQUIREMENTS then string "requirements_not_fulfilled"
  else string ("unknown(" ++ toString eSvrRegStatus ++ ")")

variable {σ : Type}

/-- Handler of `jamulus/getMode`. -/
def getMode : Handler σ := fun _params response s =>
  (response.set "result" (object [("mode", string "server")]), s)

/-- Handler of `jamulusserver/addFirewallAddress`. -/
def addFirewallAddress (srv : CServer σ) : Handler σ := fun params response s =>
  let jsonAddress := params.value "address"
  if !jsonAddress.isString then
    (response.set "error"
      (CreateJsonRpcError iErrInvalidParams "Invalid params: address is not a string"), s)
  else
    (response.set "result" (string "ok"), srv.fwAdd jsonAddress.toQString s)

/-- The `for` loop of `jamulusserver/addFirewallAddresses` over the elements
still to visit: `some response` when the loop body returned, with the server
as it is at that point; `none` when the loop ran to its end. -/
def addFirewallAddressesLoop (srv : CServer σ) :
    List QJsonValue → QJsonObject → σ → Option QJsonObject × σ
  | [], _, s => (none, s)
  | addr :: rest, response, s =>
      if !addr.isString then
        (some (response.set "error"
          (CreateJsonRpcError iErrInvalidParams
            "Invalid params: address within array is not a string")), s)
      else
        addFirewallAddressesLoop srv rest response (srv.fwAdd addr.toQString s)

/-- Handler of `jamulusserver/addFirewallAddresses`. -/
def addFirewallAddresses (srv : CServer σ) : Handler σ := fun params response s =>
  let jsonAddresses := params.value "addresses"
  if !jsonAddresses.isArray then
    (response.set "error"
      (CreateJsonRpcError iErrInvalidParams "Invalid params: addresses must be an array"), s)
  else
    match addFirewallAddressesLoop srv jsonAddresses.toArray response s with
    | (some returned, s1) => (returned, s1)
    | (none, s1) => (response.set "result" (string "ok"), s1)

/-- Handler of `jamulusserver/removeFirewallAddress`. -/
def removeFirewallAddress (srv : CServer σ) : Handler σ := fun params response s =>
  let jsonAddress := params.value "address"
  if !jsonAddress.isString then
    (response.set "error"
      (CreateJsonRpcError iErrInvalidParams "Invalid params: address is not a string"), s)
  else
    (response.set "result" (string "ok"), srv.fwRemove jsonAddress.toQString s)

/-- Handler of `jamulusserver/setFirewallMode`. -/
def setFirewallMode (srv : CServer σ) : Handler σ := fun params response s =>
  let jsonMode := params.value "mode"
  if !jsonMode.isDouble then
    (response.set "error"
      (CreateJsonRpcError iErrInvalidParams "Invalid params: mode must be numeric"), s)
  else
    let mode := jsonMode.toInt 0
    if mode ≠ 0 ∧ mode ≠ 1 then
      (response.set "error"
        (CreateJsonRpcError iErrInvalidParams "Invalid params: mode must be 0 or 1"), s)
    else
      (response.set "result" (string "ok"), srv.fwSetMode mode s)

/-- Handler of `jamulusserver/resetFirewall`. -/
def resetFirewall (srv : CServer σ) : Handler σ := fun _params response s =>
  (response.set "result" (string "ok"), srv.fwReset s)

/-- Handler of `jamulusserver/getFirewallStatus`. -/
def getFirewallStatus (srv : CServer σ) : Handler σ := fun _params response s =>
  let mode := srv.fwGetMode s
  let ips := srv.fwGetAddresses s
  let addresses := fromStringList ips
  let result := object [("mode", ofInt mode), ("addresses", addresses)]
  (response.set "result" result, s)

/-- Handler of `jamulusserver/getRecorderStatus`. -/
def getRecorderStatus (srv : CServer σ) : Handler σ := fun _params response s =>
  let result := object
    [("initialised", bool (srv.GetRecorderInitialised s)),
     ("errorMessage", string (srv.GetRecorderErrMsg s)),
     ("enabled", bool (srv.GetRecordingEnabled s)),
     ("recordingDirectory", string (srv.GetRecordingDir s))]
  (response.set "result" result, s)

/-- The `QJsonObject client` built by `jamulusserver/getClients` for slot `i`. -/
def clientRow (srv : CServer σ) (X : Externals) (s : σ) (p : ConCliParam) (i : Nat) : QJsonValue :=
  object
    [("id", ofInt i),
     ("address", string (X.toString (CVector.at p.vecHostAddresses i))),
     ("name", string (CVector.at p.vecsName i)),
     ("jitterBufferSize", ofInt (CVector.at p.veciJitBufNumFrames i)),
     ("channels", ofInt (srv.GetClientNumAudioChannels s i)),
     ("instrumentCode", ofInt (CVector.at p.vecChanInfo i).iInstrument),
     ("instrumentName", string (X.GetName (CVector.at p.vecChanInfo i).iInstrument)),
     ("city", string (CVector.at p.vecChanInfo i).strCity),
     ("countryCode", ofInt (CVector.at p.vecChanInfo i).eCountry),
     ("countryName", string (X.countryToString (CVector.at p.vecChanInfo i).eCountry)),
     ("skillLevelCode", ofInt (CVector.at p.vecChanInfo i).eSkillLevel),
     ("skillLevelName", string (X.SkillLevelToString (CVector.at p.vecChanInfo i).eSkillLevel))]

/-- One pass through the body of the `for` loop of `jamulusserver/getClients`,
on the pair `(clients, connections)`. -/
def getClientsBody (srv : CServer σ) (X : Externals) (s : σ) (p : ConCliParam)
    (acc : List QJsonValue × Int) (i : Nat) : List QJsonValue × Int :=
  if (CVector.at p.vecHostAddresses i).InetAddr = QHostAddress.IPv4 0 then
    acc
  else
    (acc.1 ++ [clientRow srv X s p i], acc.2 + 1)

/-- The `for ( int i = 0; i < iNumChannels; i++ )` loop of
`jamulusserver/getClients`, started with no client and `connections = 0`. -/
def getClientsLoop (srv : CServer σ) (X : Externals) (s : σ) (p : ConCliParam)
    (iNumChannels : Nat) : List QJsonValue × Int :=
  (List.range iNumChannels).foldl (getClientsBody srv X s p) ([], 0)

/-- Handler of `jamulusserver/getClients`. -/
def getClients (srv : CServer σ) (X : Externals) : Handler σ := fun _params response s =>
  let p := srv.GetConCliParam s
  let iNumChannels := p.vecHostAddresses.length
  let r := getClientsLoop srv X s p iNumChannels
  let result := object [("connections", ofInt r.2), ("clients", array r.1)]
  (response.set "result" result, s)

/-- Handler of `jamulusserver/getServerProfile`. -/
def getServerProfile (srv : CServer σ) (X : Externals) : Handler σ := fun _params response s =>
  let dsName :=
    if X.AT_NONE ≠ srv.GetDirectoryType s then
      X.GetDirectoryAddress (srv.GetDirectoryType s) (srv.GetDirectoryAddress s)
    else ""
  let result := object
    [("name", string (srv.GetServerName s)),
     ("city", string (srv.GetServerCity s)),
     ("countryId", ofInt (srv.GetServerCountry s)),
     ("welcomeMessage", string (srv.GetWelcomeMessage s)),
     ("directoryServer", string dsName),
     ("registrationStatus", SerializeRegistrationStatus X.E (srv.GetSvrRegStatus s))]
  (response.set "result" result, s)

/-- Handler of `jamulusserver/setServerName`. -/
def setServerName (srv : CServer σ) : Handler σ := fun params response s =>
  let jsonServerName := params.value "serverName"
  if !jsonServerName.isString then
    (response.set "error"
      (CreateJsonRpcError iErrInvalidParams "Invalid params: serverName is not a string"), s)
  else
    (response.set "result" (string "ok"), srv.SetServerName jsonServerName.toQString s)

/-- Handler of `jamulusserver/setWelcomeMessage`. -/
def setWelcomeMessage (srv : CServer σ) : Handler σ := fun params response s =>
  let jsonWelcomeMessage := params.value "welcomeMessage"
  if !jsonWelcomeMessage.isString then
    (response.set "error"
      (CreateJsonRpcError iErrInvalidParams "Invalid params: welcomeMessage is not a string"), s)
  else
    (response.set "result" (string "ok"), srv.SetWelcomeMessage jsonWelcomeMessage.toQString s)

/-- Handler of `jamulusserver/setRecordingDirectory`. -/
def setRecordingDirectory (srv : CServer σ) : Handler σ := fun params response s =>
  let jsonRecordingDirectory := params.value "recordingDirectory"
  if !jsonRecordingDirectory.isString then
    (response.set "error"
      (CreateJsonRpcError iErrInvalidParams
        "Invalid params: recordingDirectory is not a string"), s)
  else
    (response.set "result" (string "acknowledged"),
      srv.SetRecordingDir jsonRecordingDirectory.toQString s)

/-- Handler of `jamulusserver/startRecording`. -/
def startRecording (srv : CServer σ) : Handler σ := fun _params response s =>
  (response.set "result" (string "acknowledged"), srv.SetEnableRecording true s)

/-- Handler of `jamulusserver/stopRecording`. -/
def stopRecording (srv : CServer σ) : Handler σ := fun _params response s =>
  (response.set "result" (string "acknowledged"), srv.SetEnableRecording false s)

/-- Handler of `jamulusserver/restartRecording`. -/
def restartRecording (srv : CServer σ) : Handler σ := fun _params response s =>
  (response.set "result" (string "acknowledged"), srv.RequestNewRecording s)

/-- The handlers between `#ifndef NO_FIREWALL` and `#endif`, with the names
they are registered under. -/
def firewallMethods (srv : CServer σ) : List (String × Handler σ) :=
  [("jamulusserver/addFirewallAddress", addFirewallAddress srv),
   ("jamulusserver/addFirewallAddresses", addFirewallAddresses srv),
   ("jamulusserver/removeFirewallAddress", removeFirewallAddress srv),
   ("jamulusserver/setFirewallMode", setFirewallMode srv),
   ("jamulusserver/resetFirewall", resetFirewall srv),
   ("jamulusserver/getFirewallStatus", getFirewallStatus srv)]

/-- The constructor `CServerRpc::CServerRpc`: the calls of `HandleMethod` it
makes, in order.  `bNoFirewall` tells whether `NO_FIREWALL` is defined. -/
def registeredMethods (srv : CServer σ) (X : Externals) (bNoFirewall : Bool) :
    List (String × Handler σ) :=
  [("jamulus/getMode", getMode)]
  ++ (if bNoFirewall then [] else firewallMethods srv)
  ++ [("jamulusserver/getRecorderStatus", getRecorderStatus srv),
      ("jamulusserver/getClients", getClients srv X),
      ("jamulusserver/getServerProfile", getServerProfile srv X),
      ("jamulusserver/setServerName", setServerName srv),
      ("jamulusserver/setWelcomeMessage", setWelcomeMessage srv),
      ("jamulusserver/setRecordingDirectory", setRecordingDirectory srv),
      ("jamulusserver/startRecording", startRecording srv),
      ("jamulusserver/stopRecording", stopRecording srv),
      ("jamulusserver/restartRecording", restartRecording srv)]

end CServerRpc

/-! ## Two servers to run the handlers on -/

/-- A call of a method of the server object that changes it. -/
inductive ServerCall where
  | fwAdd (address : String)
  | fwRemove (address : String)
  | fwSetMode (mode : Int)
  | fwReset
  | SetServerName (name : String)
  | SetWelcomeMessage (message : String)
  | SetRecordingDir (dir : String)
  | SetEnableRecording (b : Bool)
  | RequestNewRecording
  deriving DecidableEq, Repr

/-- The recording server: its state is the list of the calls made on it so
far, oldest first; its getters answer fixed values. -/
def recorder : CServer (List ServerCall) where
  fwAdd a s := s ++ [ServerCall.fwAdd a]
  fwRemove a s := s ++ [ServerCall.fwRemove a]
  fwSetMode m s := s ++ [ServerCall.fwSetMode m]
  fwReset s := s ++ [ServerCall.fwReset]
  fwGetMode _ := 0
  fwGetAddresses _ := []
  GetRecorderInitialised _ := false
  GetRecorderErrMsg _ := ""
  GetRecordingEnabled _ := false
  GetRecordingDir _ := ""
  GetConCliParam _ := ⟨[], [], [], [], []⟩
  GetClientNumAudioChannels _ _ := 0
  GetDirectoryType _ := 0
  GetDirectoryAddress _ := ""
  GetServerName _ := ""
  GetServerCity _ := ""
  GetServerCountry _ := 0
  GetWelcomeMessage _ := ""
  GetSvrRegStatus _ := 0
  SetServerName n s := s ++ [ServerCall.SetServerName n]
  SetWelcomeMessage m s := s ++ [ServerCall.SetWelcomeMessage m]
  SetRecordingDir d s := s ++ [ServerCall.SetRecordingDir d]
  SetEnableRecording b s := s ++ [ServerCall.SetEnableRecording b]
  RequestNewRecording s := s ++ [ServerCall.RequestNewRecording]

/-- Modelled from the spec: the access-control state of the socket object,
whose code is outside these two files; the spec calls it the set of addresses
and a mode (open or closed). -/
structure Firewall where
  mode : Int
  addresses : List String
  deriving DecidableEq, Repr

/-- Modelled from the spec: a server whose socket keeps a `Firewall`, with
add, remove, list of the addresses, get and set of the mode, and reset to the
open mode with no address; everything else about this server is inert. -/
def firewallServer : CServer Firewall where
  fwAdd a s := if a ∈ s.addresses then s else ⟨s.mode, s.addresses ++ [a]⟩
  fwRemove a s := ⟨s.mode, s.addresses.filter (fun b => b ≠ a)⟩
  fwSetMode m s := ⟨m, s.addresses⟩
  fwReset _ := ⟨0, []⟩
  fwGetMode s := s.mode
  fwGetAddresses s := s.addresses
  GetRecorderInitialised _ := false
  GetRecorderErrMsg _ := ""
  GetRecordingEnabled _ := false
  GetRecordingDir _ := ""
  GetConCliParam _ := ⟨[], [], [], [], []⟩
  GetClientNumAudioChannels _ _ := 0
  GetDirectoryType _ := 0
  GetDirectoryAddress _ := ""
  GetServerName _ := ""
  GetServerCity _ := ""
  GetServerCountry _ := 0
  GetWelcomeMessage _ := ""
  GetSvrRegStatus _ := 0
  SetServerName _ s := s
  SetWelcomeMessage _ s := s
  SetRecordingDir _ s := s
  SetEnableRecording _ s := s
  RequestNewRecording s := s

/-! ## The event logger -/

/-- `QString::replace ( before, after )` on the characters of a string, for a
non-empty `before`: scanning from the left, every occurrence of `before` is
replaced by `after` and the scan resumes behind the occurrence.  The first
argument bounds the number of scan steps. -/
def replaceChars (before after : List Char) : Nat → List Char → List Char
  | 0, s => s
  | _ + 1, [] => []
  | fuel + 1, c :: cs =>
      if before.isPrefixOf (c :: cs) then
        after ++ replaceChars before after fuel ((c :: cs).drop before.length)
      else
        c :: replaceChars before after fuel cs

/-- `QString::replace ( const QString& before, const QString& after )`; one
scan step per character of the string is enough. -/
def QString.replace (s before after : String) : String :=
  ⟨replaceChars before.data after.data s.data.length s.data⟩

/-- `QString::number ( int )`. -/
def QString.number (n : Int) : String := toString n

/-- A `CChannel`: what the logger reads from it. -/
structure CChannel where
  Address : CHostAddress
  Name : String

/-- The logger `CServerLogging` with its two sinks: the flag `bDoLogging`, the
text written to the log file `File` so far, and the messages handed to
`qInfo()` so far (the console), oldest first. -/
structure CServerLogging where
  bDoLogging : Bool
  File : String
  console : List String
  deriving DecidableEq, Repr

namespace CServerLogging

/-- `CServerLogging::operator<<`. -/
def operatorShiftLeft (log : CServerLogging) (sNewStr : String) : CServerLogging :=
  if log.bDoLogging then
    { log with File := log.File ++ sNewStr ++ "\n" }
  else
    log

/-- The statement `qInfo() << qUtf8Printable ( strLogStr )`. -/
def qInfo (log : CServerLogging) (strLogStr : String) : CServerLogging :=
  { log with console := log.console ++ [strLogStr] }

/-- `CServerLogging::AddNewConnection`.  `strCurTime` is what
`CurTimeDatetoLogString()` returns at this call and `toString` is
`CHostAddress::toString`. -/
def AddNewConnection (toString : CHostAddress → String) (strCurTime : String)
    (log : CServerLogging) (ClientInetAddr : CHostAddress) (iNumberOfConnectedClients : Int) :
    CServerLogging :=
  let strLogStr := strCurTime ++ "\tCONNECT\t" ++ toString ClientInetAddr ++ "\tconnected ("
    ++ QString.number iNumberOfConnectedClients ++ ")"
  (log.qInfo strLogStr).operatorShiftLeft strLogStr

/-- `CServerLogging::AddServerStopped`. -/
def AddServerStopped (strCurTime : String) (log : CServerLogging) : CServerLogging :=
  let strLogStr := strCurTime ++ "\tIDLE"
  (log.qInfo strLogStr).operatorShiftLeft strLogStr

/-- The five `cName.replace` calls of `AddChannelInfoChanged`, in order. -/
def sanitizedName (Name : String) : String :=
  let cName := Name
  let cName := QString.replace cName "\n" " "
  let cName := QString.replace cName "\r" " "
  let cName := QString.replace cName "\t" " "
  let cName := QString.replace cName "\\" "\\\\"
  let cName := QString.replace cName "\"" "\\\""
  cName

/-- `CServerLogging::AddChannelInfoChanged`. -/
def AddChannelInfoChanged (toString : CHostAddress → String) (strCurTime : String)
    (log : CServerLogging) (channel : CChannel) : CServerLogging :=
  if !log.bDoLogging then
    log
  else
    let address_parts := toString channel.Address
    let cName := sanitizedName channel.Name
    let strLogStr := strCurTime ++ "\tCHANNEL\t" ++ address_parts ++ "\t" ++ cName
    (log.qInfo strLogStr).operatorShiftLeft strLogStr

end CServerLogging

/-! ## Reference descriptions the code is compared with -/

/-- The image of one character of a channel name in the log, as the spec
describes the sanitization: newline, carriage return and tab become one space,
a backslash becomes two backslashes, a double quote becomes a backslash and a
double quote, any other character stays. -/
def escapeChar (c : Char) : List Char :=
  if c = '\n' ∨ c = '\r' ∨ c = '\t' then [' ']
  else if c = '\\' then ['\\', '\\']
  else if c = '"' then ['\\', '"']
  else [c]

/-- The character-wise sanitization: the images of the characters of the
name, concatenated in order. -/
def sanitizeReference (Name : String) : String := ⟨Name.data.flatMap escapeChar⟩

/-- A slot of the roster: its index and the entries of the vectors at that
index. -/
structure Slot where
  index : Nat
  address : CHostAddress
  name : String
  jitBufNumFrames : Int
  chanInfo : CChannelCoreInfo

/-- The slots of a roster, in increasing index. -/
def slots (p : ConCliParam) : List Slot :=
  (p.vecHostAddresses.zip (p.vecsName.zip (p.veciJitBufNumFrames.zip p.vecChanInfo))).enum.map
    (fun e => ⟨e.1, e.2.1, e.2.2.1, e.2.2.2.1, e.2.2.2.2⟩)

/-- A slot is occupied when its address is not the zero address. -/
def Slot.occupied (sl : Slot) : Bool := sl.address.InetAddr ≠ QHostAddress.IPv4 0

/-- The row of a slot in the answer of `getClients`, as the method's
documentation lists its fields. -/
def Slot.row {σ : Type} (srv : CServer σ) (X : Externals) (s : σ) (sl : Slot) : QJsonValue :=
  QJsonValue.object
    [("id", QJsonValue.ofInt sl.index),
     ("address", QJsonValue.string (X.toString sl.address)),
     ("name", QJsonValue.string sl.name),
     ("jitterBufferSize", QJsonValue.ofInt sl.jitBufNumFrames),
     ("channels", QJsonValue.ofInt (srv.GetClientNumAudioChannels s sl.index)),
     ("instrumentCode", QJsonValue.ofInt sl.chanInfo.iInstrument),
     ("instrumentName", QJsonValue.string (X.GetName sl.chanInfo.iInstrument)),
     ("city", QJsonValue.string sl.chanInfo.strCity),
     ("countryCode", QJsonValue.ofInt sl.chanInfo.eCountry),
     ("countryName", QJsonValue.string (X.countryToString sl.chanInfo.eCountry)),
     ("skillLevelCode", QJsonValue.ofInt sl.chanInfo.eSkillLevel),
     ("skillLevelName", QJsonValue.string (X.SkillLevelToString sl.chanInfo.eSkillLevel))]

/-- The member `key` of a JSON value that is an object. -/
def QJsonValue.member (v : QJsonValue) (key : String) : QJsonValue :=
  match v with
  | QJsonValue.object o => QJsonObject.value o key
  | _ => QJsonValue.undefined

/-- A call of one of the two event operations of the logger that always
reach the console, with the time stamp the clock gives at that call. -/
inductive LogCall where
  | AddNewConnection (strCurTime : String) (ClientInetAddr : CHostAddress)
      (iNumberOfConnectedClients : Int)
  | AddServerStopped (strCurTime : String)

/-- The record of a call as the spec writes it:
`<timestamp>\tCONNECT\t<address>\tconnected (<count>)` and `<timestamp>\tIDLE`. -/
def LogCall.record (toString : CHostAddress → String) : LogCall → String
  | LogCall.AddNewConnection t a n =>
      t ++ "\tCONNECT\t" ++ toString a ++ "\tconnected (" ++ Int.repr n ++ ")"
  | LogCall.AddServerStopped t => t ++ "\tIDLE"

/-- The logger after a call. -/
def LogCall.run (toString : CHostAddress → String) (log : CServerLogging) :
    LogCall → CServerLogging
  | LogCall.AddNewConnection t a n => CServerLogging.AddNewConnection toString t log a n
  | LogCall.AddServerStopped t => CServerLogging.AddServerStopped t log

/-- A response carries exactly one of the keys `result` and `error`. -/
def QJsonObject.exactlyOneOfResultError (r : QJsonObject) : Prop :=
  (r.contains "result" = true ∧ r.contains "error" = false)
  ∨ (r.contains "result" = false ∧ r.contains "error" = true)

/-- The contract of a handler with one string parameter `field`, which on a
string calls the server operation `op` (recorded as `call`) and answers
`okText`.  On every server: when `field` is absent or not a string, the
response gets the InvalidParams error with the text `message` and the server
is as before; when it is the string `str`, the response gets the result
`okText` and the server is `op str` of the server before.  On the recording
server: no call is added in the first case, the one call `call str` in the
second. -/
def SingleStringContract (handler : {σ : Type} → CServer σ → Handler σ) (field : String)
    (op : {σ : Type} → CServer σ → String → σ → σ) (call : String → ServerCall)
    (message okText : String) : Prop :=
  (∀ (σ : Type) (srv : CServer σ) (params response : QJsonObject) (s : σ),
    ((params.value field).isString = false →
      handler srv params response s =
        (response.set "error" (CreateJsonRpcError iErrInvalidParams message), s))
    ∧ (∀ str : String, params.value field = QJsonValue.string str →
      handler srv params response s =
        (response.set "result" (QJsonValue.string okText), op srv str s)))
  ∧ (∀ (params response : QJsonObject) (calls : List ServerCall),
    ((params.value field).isString = false →
      (handler recorder params response calls).2 = calls)
    ∧ (∀ str : String, params.value field = QJsonValue.string str →
      (handler recorder params response calls).2 = calls ++ [call str]))

/-- The constructor `CServerLogging::CServerLogging`: `bDoLogging` is false;
nothing has been written to the file or handed to the console yet. -/
def CServerLogging.ctor : CServerLogging := ⟨false, "", []⟩

/-- `CServerLogging::Start`.  `bOpened` is what
`File.open ( QIODevice::Append | QIODevice::Text )` returns at this call; the
name set with `File.setFileName` is not part of the logger state kept here. -/
def CServerLogging.Start (log : CServerLogging) (_strLoggingFileName : String)
    (bOpened : Bool) : CServerLogging :=
  if bOpened then
    { log with bDoLogging := true }
  else
    log

/-- A call of one of the three event operations of the logger. -/
inductive LogEvent where
  | call (c : LogCall)
  | AddChannelInfoChanged (strCurTime : String) (channel : CChannel)

/-- The logger after an event operation. -/
def LogEvent.run (toString : CHostAddress → String) (log : CServerLogging) :
    LogEvent → CServerLogging
  | LogEvent.call c => c.run toString log
  | LogEvent.AddChannelInfoChanged t channel =>
      CServerLogging.AddChannelInfoChanged toString t log channel

/-- The logger after a sequence of event operations, first to last. -/
def LogEvent.runAll (toString : CHostAddress → String) (log : CServerLogging)
    (events : List LogEvent) : CServerLogging :=
  events.foldl (LogEvent.run toString) log

/-- A reader of the name field of a CHANNEL record: a backslash stands for the
character that follows it, any other character for itself. -/
def unescapeChars : List Char → List Char
  | [] => []
  | [c] => [c]
  | c :: d :: rest =>
      if c = '\\' then d :: unescapeChars rest else c :: unescapeChars (d :: rest)

/-- A server with four slots, of which slot 2 holds the zero address. -/
def fourSlotServer : CServer (List ServerCall) :=
  { recorder with
    GetConCliParam := fun _ =>
      ⟨[⟨QHostAddress.IPv4 167772161, 22124⟩, ⟨QHostAddress.IPv4 167772162, 22124⟩,
         ⟨QHostAddress.IPv4 0, 0⟩, ⟨QHostAddress.IPv4 167772164, 22124⟩],
        ["ann", "bob", "", "dan"], [4, 5, 0, 6], [1, 1, 1, 1],
        [⟨1, "Oslo", 161, 1⟩, ⟨2, "Rome", 106, 2⟩, ⟨0, "", 0, 0⟩, ⟨3, "Kyiv", 222, 3⟩]⟩ }

/-- Library functions that answer the empty string, with `AT_NONE = 0` and the
enumerators of `ESvrRegStatus` numbered from 0 in declaration order. -/
def plainExternals : Externals :=
  ⟨fun _ => "", fun _ => "", fun _ => "", fun _ => "", fun _ _ => "", 0,
    ⟨0, 1, 2, 3, 4, 5, 6, 7, 8⟩⟩

/-! ## Theorems -/

namespace CServerRpc

open QJsonValue

variable {σ : Type}

/-- The loop of `addFirewallAddresses` on an array with a non-string element:
it returns at the first such element, after `fwAdd` on the strings before. -/
theorem addFirewallAddressesLoop_invalid (srv : CServer σ) (response : QJsonObject) :
    ∀ (a : List QJsonValue) (s : σ), (∃ v ∈ a, v.isString = false) →
      addFirewallAddressesLoop srv a response s =
        (some (response.set "error" (CreateJsonRpcError iErrInvalidParams
            "Invalid params: address within array is not a string")),
          (a.takeWhile isString).foldl (fun st v => srv.fwAdd v.toQString st) s)
  | [], _, h => by simp at h
  | v :: rest, s, h => by
    cases hv : v.isString with
    | false => simp [addFirewallAddressesLoop, hv]
    | true =>
      have hrest : ∃ w ∈ rest, w.isString = false := by
        obtain ⟨w, hw, hws⟩ := h
        rcases List.mem_cons.mp hw with rfl | hw
        · rw [hv] at hws; cases hws
        · exact ⟨w, hw, hws⟩
      simp [addFirewallAddressesLoop, hv, addFirewallAddressesLoop_invalid srv response rest _ hrest]

/-- The loop of `addFirewallAddresses` on an array of strings runs to its end,
with `fwAdd` on every element in order. -/
theorem addFirewallAddressesLoop_valid (srv : CServer σ) (response : QJsonObject) :
    ∀ (a : List QJsonValue) (s : σ), (∀ v ∈ a, v.isString = true) →
      addFirewallAddressesLoop srv a response s =
        (none, a.foldl (fun st v => srv.fwAdd v.toQString st) s)
  | [], _, _ => by simp [addFirewallAddressesLoop]
  | v :: rest, s, h => by
    have hv : v.isString = true := h v (List.mem_cons_self _ _)
    have hrest : ∀ w ∈ rest, w.isString = true := fun w hw => h w (List.mem_cons_of_mem _ hw)
    simp [addFirewallAddressesLoop, hv, addFirewallAddressesLoop_valid srv response rest _ hrest]

/-- C1 (as amended): when `params.addresses` is an array with a non-string
element, `addFirewallAddresses` answers the InvalidParams error, and the server
afterwards is the server before with `fwAdd` applied, in order, to the
elements that precede the first non-string element, and to no other. -/
theorem addFirewallAddresses_invalid_element (srv : CServer σ) (params response : QJsonObject)
    (s : σ) (a : List QJsonValue) (ha : params.value "addresses" = array a)
    (hbad : ∃ v ∈ a, v.isString = false) :
    addFirewallAddresses srv params response s =
      (response.set "error" (CreateJsonRpcError iErrInvalidParams
          "Invalid params: address within array is not a string"),
        (a.takeWhile isString).foldl (fun st v => srv.fwAdd v.toQString st) s) := by
  simp [addFirewallAddresses, ha, isArray, toArray,
    addFirewallAddressesLoop_invalid srv response a s hbad]

/-- The amended C1 at `addresses = ["1.2.3.4", 42]` on the recording server:
the one call made is `fwAdd "1.2.3.4"`. -/
theorem addFirewallAddresses_invalid_element_witness :
    (∃ v ∈ [string "1.2.3.4", double 42], v.isString = false) ∧
    addFirewallAddresses recorder [("addresses", array [string "1.2.3.4", double 42])] [] [] =
      ([("error", CreateJsonRpcError iErrInvalidParams
          "Invalid params: address within array is not a string")],
        [ServerCall.fwAdd "1.2.3.4"]) :=
  ⟨⟨double 42, by simp, rfl⟩,
   addFirewallAddresses_invalid_element recorder
     [("addresses", array [string "1.2.3.4", double 42])] [] []
     [string "1.2.3.4", double 42] rfl ⟨double 42, by simp, rfl⟩⟩

/-- C1 (as stated) fails: with `addresses = ["1.2.3.4", 42]` and an empty
access-control list, `addFirewallAddresses` answers an error and the list
afterwards holds "1.2.3.4", so it is not the list before the call. -/
theorem addFirewallAddresses_not_atomic :
    (addFirewallAddresses firewallServer
        [("addresses", array [string "1.2.3.4", double 42])] [] ⟨0, []⟩).1.contains "error" = true
    ∧ (addFirewallAddresses firewallServer
        [("addresses", array [string "1.2.3.4", double 42])] [] ⟨0, []⟩).2.addresses = ["1.2.3.4"]
    ∧ (addFirewallAddresses firewallServer
        [("addresses", array [string "1.2.3.4", double 42])] [] ⟨0, []⟩).2
        ≠ (⟨0, []⟩ : Firewall) := by
  refine ⟨by rfl, by rfl, by decide⟩

/-- What `setFirewallMode` does on every input: it answers "ok" and calls
`fwSetMode` exactly when `mode` is a number whose `toInt ( )` is 0 or 1. -/
theorem setFirewallMode_eq (srv : CServer σ) (params response : QJsonObject) (s : σ) :
    setFirewallMode srv params response s =
      if (params.value "mode").isDouble = true ∧
          ((params.value "mode").toInt 0 = 0 ∨ (params.value "mode").toInt 0 = 1) then
        (response.set "result" (string "ok"), srv.fwSetMode ((params.value "mode").toInt 0) s)
      else if (params.value "mode").isDouble = true then
        (response.set "error"
          (CreateJsonRpcError iErrInvalidParams "Invalid params: mode must be 0 or 1"), s)
      else
        (response.set "error"
          (CreateJsonRpcError iErrInvalidParams "Invalid params: mode must be numeric"), s) := by
  unfold setFirewallMode
  cases hd : (params.value "mode").isDouble with
  | false => simp [hd]
  | true =>
    by_cases h0 : (params.value "mode").toInt 0 = 0
    · simp [hd, h0]
    · by_cases h1 : (params.value "mode").toInt 0 = 1
      · simp [hd, h1]
      · simp [hd, h0, h1]

/-- C2 at the inputs `{mode: 0.5}` and `{mode: 4294967296}`: `toInt ( )` gives
its default 0 for a number that is not whole or does not fit an `int`, so the
handler answers "ok" and calls `fwSetMode ( 0 )`. -/
theorem setFirewallMode_accepts_non_int :
    setFirewallMode recorder [("mode", double (1 / 2))] [] []
      = ([("result", string "ok")], [ServerCall.fwSetMode 0])
    ∧ setFirewallMode recorder [("mode", double 4294967296)] [] []
      = ([("result", string "ok")], [ServerCall.fwSetMode 0]) := by
  constructor
  · have h : ¬ ((1 / 2 : ℚ).den = 1) := by norm_num
    simp [setFirewallMode, QJsonObject.value, List.lookup, isDouble, toInt, QJsonObject.set,
      recorder, h]
  · have h : ¬ ((4294967296 : ℚ).num ≤ 2147483647) := by norm_num
    simp [setFirewallMode, QJsonObject.value, List.lookup, isDouble, toInt, QJsonObject.set,
      recorder, h]

end CServerRpc

/-! ### Channel-name sanitization -/

/-- Replacing a one-character pattern maps every character on its own. -/
theorem replaceChars_single (b : Char) (after : List Char) :
    ∀ (fuel : Nat) (s : List Char), s.length ≤ fuel →
      replaceChars [b] after fuel s = s.flatMap (fun c => if c = b then after else [c])
  | 0, s, h => by
    have hs : s = [] := List.length_eq_zero.mp (Nat.le_zero.mp h)
    subst hs
    simp [replaceChars]
  | fuel + 1, [], _ => by simp [replaceChars]
  | fuel + 1, c :: cs, h => by
    have hcs : cs.length ≤ fuel := by simpa using h
    have ih := replaceChars_single b after fuel cs hcs
    by_cases hc : c = b
    · subst hc
      simp [replaceChars, List.isPrefixOf, ih]
    · have hbc : ¬ b = c := fun e => hc e.symm
      simp [replaceChars, List.isPrefixOf, ih, hc, hbc]

/-- `QString::replace` with a one-character pattern, character by character. -/
theorem QString.replace_single (s : String) (b : Char) (after : String) :
    QString.replace s (String.singleton b) after
      = ⟨s.data.flatMap (fun c => if c = b then after.data else [c])⟩ := by
  have h := replaceChars_single b after.data s.data.length s.data (le_refl _)
  have hb : (String.singleton b).data = [b] := rfl
  simp only [QString.replace, hb, String.length, h]

/-- The five replacements, composed, act on one character as `escapeChar`. -/
theorem escapeChar_eq (c : Char) :
    (((((if c = '\n' then [' '] else [c]).flatMap (fun c => if c = '\r' then [' '] else [c])).flatMap
      (fun c => if c = '\t' then [' '] else [c])).flatMap
      (fun c => if c = '\\' then ['\\', '\\'] else [c])).flatMap
      (fun c => if c = '"' then ['\\', '"'] else [c])) = escapeChar c := by
  unfold escapeChar
  by_cases h1 : c = '\n'
  · subst h1; decide
  by_cases h2 : c = '\r'
  · subst h2; decide
  by_cases h3 : c = '\t'
  · subst h3; decide
  by_cases h4 : c = '\\'
  · subst h4; decide
  by_cases h5 : c = '"'
  · subst h5; decide
  simp [h1, h2, h3, h4, h5]

/-- The sequential replacements of `AddChannelInfoChanged` are the
character-wise map. -/
theorem sanitizedName_data (Name : String) :
    (CServerLogging.sanitizedName Name).data = Name.data.flatMap escapeChar := by
  have e1 : ("\n" : String) = String.singleton '\n' := by decide
  have e2 : ("\r" : String) = String.singleton '\r' := by decide
  have e3 : ("\t" : String) = String.singleton '\t' := by decide
  have e4 : ("\\" : String) = String.singleton '\\' := by decide
  have e5 : ("\"" : String) = String.singleton '"' := by decide
  have d1 : (" " : String).data = [' '] := by decide
  have d4 : ("\\\\" : String).data = ['\\', '\\'] := by decide
  have d5 : ("\\\"" : String).data = ['\\', '"'] := by decide
  unfold CServerLogging.sanitizedName
  simp only [e1, e2, e3, e4, e5, QString.replace_single, d1, d4, d5, List.flatMap_assoc]
  congr 1
  funext c
  rw [← escapeChar_eq c]
  simp only [List.flatMap_assoc]

/-- C3: the five sequential `replace` calls of `AddChannelInfoChanged` give the
concatenation of the images of the characters under the character-wise map
(newline, carriage return, tab to a space; backslash doubled; quote to
backslash quote), and the input with a quoted word, a tab, a newline and two
backslashes gives the text with escaped quotes, spaces and four backslashes. -/
theorem sanitizedName_eq_reference :
    (∀ Name : String, CServerLogging.sanitizedName Name = sanitizeReference Name)
    ∧ CServerLogging.sanitizedName "He said \"hi\"\tand\nbye\\\\now"
        = "He said \\\"hi\\\" and bye\\\\\\\\now" := by
  refine ⟨fun Name => ?_, by decide⟩
  apply String.ext
  rw [sanitizedName_data]
  rfl

/-! ### Registration status -/

namespace CServerRpc

open QJsonValue

/-- C4: `SerializeRegistrationStatus` is a total function; on the nine
enumerators of `ESvrRegStatus` it gives the nine fixed strings, which are
pairwise distinct, and on every other integer `n` it gives
`unknown(<decimal n>)`. -/
theorem SerializeRegistrationStatus_table (E : ESvrRegStatus) (hE : E.values.Nodup) :
    (List.map (SerializeRegistrationStatus E) E.values =
      List.map string ["not_registered", "bad_address", "requested", "time_out", "unknown_resp",
        "registered", "directory_server_full", "server_version_too_old",
        "requirements_not_fulfilled"])
    ∧ ["not_registered", "bad_address", "requested", "time_out", "unknown_resp",
        "registered", "directory_server_full", "server_version_too_old",
        "requirements_not_fulfilled"].Nodup
    ∧ (∀ n : Int, n ∉ E.values →
        SerializeRegistrationStatus E n = string ("unknown(" ++ Int.repr n ++ ")")) := by
  refine ⟨?_, by decide, ?_⟩
  · simp only [ESvrRegStatus.values, List.nodup_cons, List.mem_cons, List.mem_singleton,
      not_or, List.not_mem_nil, not_false_eq_true, List.nodup_nil, and_true] at hE
    simp only [ESvrRegStatus.values, List.map_cons, List.map_nil, SerializeRegistrationStatus]
    obtain ⟨⟨h01, h02, h03, h04, h05, h06, h07, h08⟩, ⟨h12, h13, h14, h15, h16, h17, h18⟩,
      ⟨h23, h24, h25, h26, h27, h28⟩, ⟨h34, h35, h36, h37, h38⟩, ⟨h45, h46, h47, h48⟩,
      ⟨h56, h57, h58⟩, ⟨h67, h68⟩, h78⟩ := hE
    simp [Ne.symm h01, Ne.symm h02, Ne.symm h03, Ne.symm h04, Ne.symm h05, Ne.symm h06,
      Ne.symm h07, Ne.symm h08, Ne.symm h12, Ne.symm h13, Ne.symm h14, Ne.symm h15, Ne.symm h16,
      Ne.symm h17, Ne.symm h18, Ne.symm h23, Ne.symm h24, Ne.symm h25, Ne.symm h26, Ne.symm h27,
      Ne.symm h28, Ne.symm h34, Ne.symm h35, Ne.symm h36, Ne.symm h37, Ne.symm h38, Ne.symm h45,
      Ne.symm h46, Ne.symm h47, Ne.symm h48, Ne.symm h56, Ne.symm h57, Ne.symm h58, Ne.symm h67,
      Ne.symm h68, Ne.symm h78]
  · intro n hn
    simp only [ESvrRegStatus.values, List.mem_cons, List.mem_singleton, not_or,
      List.not_mem_nil, not_false_eq_true, and_true] at hn
    obtain ⟨h0, h1, h2, h3, h4, h5, h6, h7, h8⟩ := hn
    have hr : toString n = Int.repr n := by cases n <;> rfl
    simp [SerializeRegistrationStatus, h0, h1, h2, h3, h4, h5, h6, h7, h8, hr]

/-- C4 with the enumerators numbered 0 to 8 in declaration order: the table,
and 999 gives `unknown(999)`. -/
theorem SerializeRegistrationStatus_table_witness :
    (ESvrRegStatus.values ⟨0, 1, 2, 3, 4, 5, 6, 7, 8⟩).Nodup
    ∧ List.map (SerializeRegistrationStatus ⟨0, 1, 2, 3, 4, 5, 6, 7, 8⟩) [0, 1, 2, 3, 4, 5, 6, 7, 8] =
      List.map string ["not_registered", "bad_address", "requested", "time_out", "unknown_resp",
        "registered", "directory_server_full", "server_version_too_old",
        "requirements_not_fulfilled"]
    ∧ SerializeRegistrationStatus ⟨0, 1, 2, 3, 4, 5, 6, 7, 8⟩ 999 = string "unknown(999)" :=
  ⟨by decide,
   (SerializeRegistrationStatus_table ⟨0, 1, 2, 3, 4, 5, 6, 7, 8⟩ (by decide)).1,
   (SerializeRegistrationStatus_table ⟨0, 1, 2, 3, 4, 5, 6, 7, 8⟩ (by decide)).2.2 999 (by decide)⟩

end CServerRpc

/-! ### The roster of `getClients` -/

namespace CServerRpc

open QJsonValue

variable {σ : Type}

/-- The loop of `getClients` after `n` slots: the rows of the slots below `n`
whose address is not the zero address, in increasing index, and their number. -/
theorem getClientsLoop_eq (srv : CServer σ) (X : Externals) (s : σ) (p : ConCliParam) :
    ∀ n : Nat, getClientsLoop srv X s p n =
      (((List.range n).filter
          (fun i => decide ((CVector.at p.vecHostAddresses i).InetAddr ≠ QHostAddress.IPv4 0))).map
          (clientRow srv X s p),
        ((((List.range n).filter
          (fun i => decide ((CVector.at p.vecHostAddresses i).InetAddr ≠ QHostAddress.IPv4 0))).length
          : Nat) : Int))
  | 0 => by simp [getClientsLoop]
  | n + 1 => by
    have ih := getClientsLoop_eq srv X s p n
    unfold getClientsLoop at ih ⊢
    rw [List.range_succ, List.foldl_append, ih]
    by_cases h : (CVector.at p.vecHostAddresses n).InetAddr = QHostAddress.IPv4 0
    · simp [getClientsBody, h, List.filter_append]
    · simp [getClientsBody, h, List.filter_append]

/-- With vectors of one length, the slots of the roster are the entries of the
vectors at the indices below that length. -/
theorem slots_eq_range (p : ConCliParam)
    (h1 : p.vecsName.length = p.vecHostAddresses.length)
    (h2 : p.veciJitBufNumFrames.length = p.vecHostAddresses.length)
    (h3 : p.vecChanInfo.length = p.vecHostAddresses.length) :
    slots p = (List.range p.vecHostAddresses.length).map (fun i =>
      (⟨i, CVector.at p.vecHostAddresses i, CVector.at p.vecsName i,
        CVector.at p.veciJitBufNumFrames i, CVector.at p.vecChanInfo i⟩ : Slot)) := by
  apply List.ext_getElem
  · simp [slots, h1, h2, h3]
  · intro i hi1 hi2
    have hi : i < p.vecHostAddresses.length := by simpa using hi2
    simp [slots, CVector.at, List.getD_eq_getElem, hi, h1, h2, h3]

end CServerRpc

namespace CServerRpc

open QJsonValue

variable {σ : Type}

/-- C5: when the vectors of the roster have one length, `getClients` answers
the rows of exactly the occupied slots (address not the zero address), in
increasing slot index, `connections` is the length of `clients`, the slots
carry the indices `0 .. n-1` in order, and the `id` of a row is the index of
its slot. -/
theorem getClients_occupied_slots (srv : CServer σ) (X : Externals)
    (params response : QJsonObject) (s : σ)
    (h1 : (srv.GetConCliParam s).vecsName.length = (srv.GetConCliParam s).vecHostAddresses.length)
    (h2 : (srv.GetConCliParam s).veciJitBufNumFrames.length
      = (srv.GetConCliParam s).vecHostAddresses.length)
    (h3 : (srv.GetConCliParam s).vecChanInfo.length
      = (srv.GetConCliParam s).vecHostAddresses.length) :
    getClients srv X params response s =
      (response.set "result" (object
        [("connections", ofInt ((((slots (srv.GetConCliParam s)).filter Slot.occupied).map
            (Slot.row srv X s)).length : Nat)),
         ("clients", array (((slots (srv.GetConCliParam s)).filter Slot.occupied).map
            (Slot.row srv X s)))]), s)
    ∧ (slots (srv.GetConCliParam s)).map Slot.index
        = List.range (srv.GetConCliParam s).vecHostAddresses.length
    ∧ ∀ sl : Slot, (Slot.row srv X s sl).member "id" = ofInt sl.index := by
  refine ⟨?_, ?_, ?_⟩
  · simp only [getClients, getClientsLoop_eq, slots_eq_range _ h1 h2 h3, List.filter_map,
      List.map_map, List.length_map]
    rfl
  · rw [slots_eq_range _ h1 h2 h3, List.map_map]
    exact List.map_id _
  · intro sl
    rfl

/-- C5 on four slots with the zero address in slot 2: the ids listed are
0, 1, 3 and `connections` is 3. -/
theorem getClients_occupied_slots_witness :
    ((((getClients fourSlotServer plainExternals [] [] []).1.value "result").member
        "clients").toArray.map (fun r => r.member "id") = [ofInt 0, ofInt 1, ofInt 3])
    ∧ ((getClients fourSlotServer plainExternals [] [] []).1.value "result").member "connections"
        = ofInt 3 := by
  rw [(getClients_occupied_slots fourSlotServer plainExternals [] [] [] rfl rfl rfl).1]
  exact ⟨rfl, rfl⟩

end CServerRpc

/-! ### The response of every handler -/

namespace CServerRpc

open QJsonValue

variable {σ : Type}

/-- Setting `result` in the empty response leaves exactly the key `result`. -/
theorem exactlyOne_set_result (v : QJsonValue) :
    (QJsonObject.set [] "result" v).exactlyOneOfResultError :=
  Or.inl ⟨by simp [QJsonObject.set, QJsonObject.contains], by
    simp [QJsonObject.set, QJsonObject.contains]⟩

/-- Setting `error` in the empty response leaves exactly the key `error`. -/
theorem exactlyOne_set_error (v : QJsonValue) :
    (QJsonObject.set [] "error" v).exactlyOneOfResultError :=
  Or.inr ⟨by simp [QJsonObject.set, QJsonObject.contains], by
    simp [QJsonObject.set, QJsonObject.contains]⟩

/-- The loop of `addFirewallAddresses` either runs to its end or returns a
response in which `error` has been set. -/
theorem addFirewallAddressesLoop_returned (srv : CServer σ) (response : QJsonObject) :
    ∀ (a : List QJsonValue) (s : σ),
      (addFirewallAddressesLoop srv a response s).1 = none
      ∨ (addFirewallAddressesLoop srv a response s).1 =
          some (response.set "error" (CreateJsonRpcError iErrInvalidParams
            "Invalid params: address within array is not a string"))
  | [], _ => by simp [addFirewallAddressesLoop]
  | v :: rest, s => by
    cases hv : v.isString with
    | false => simp [addFirewallAddressesLoop, hv]
    | true =>
      simpa [addFirewallAddressesLoop, hv] using
        addFirewallAddressesLoop_returned srv response rest (srv.fwAdd v.toQString s)

/-- The response of `addFirewallAddresses` to any request. -/
theorem addFirewallAddresses_exactlyOne (srv : CServer σ) (params : QJsonObject) (s : σ) :
    (addFirewallAddresses srv params [] s).1.exactlyOneOfResultError := by
  unfold addFirewallAddresses
  cases ha : (params.value "addresses").isArray with
  | false => simpa [ha] using exactlyOne_set_error _
  | true =>
    simp only [ha, Bool.not_true, Bool.false_eq_true, if_false]
    rcases h : addFirewallAddressesLoop srv (params.value "addresses").toArray [] s with ⟨r, s1⟩
    have hr := addFirewallAddressesLoop_returned srv [] (params.value "addresses").toArray s
    rw [h] at hr
    rcases hr with hr | hr
    · simp only at hr
      subst hr
      exact exactlyOne_set_result _
    · simp only at hr
      subst hr
      exact exactlyOne_set_error _

/-- C6: every handler registered by the constructor of `CServerRpc`, with or
without the firewall methods, run on any params and any server with the empty
response, leaves exactly one of `result` and `error` in the response. -/
theorem registeredMethods_exactlyOne (srv : CServer σ) (X : Externals) (bNoFirewall : Bool)
    (m : String × Handler σ) (hm : m ∈ registeredMethods srv X bNoFirewall)
    (params : QJsonObject) (s : σ) :
    (m.2 params [] s).1.exactlyOneOfResultError := by
  have hfw : ∀ m ∈ firewallMethods srv, ∀ (params : QJsonObject) (s : σ),
      (m.2 params [] s).1.exactlyOneOfResultError := by
    intro m hm params s
    simp only [firewallMethods, List.mem_cons, List.mem_singleton, List.not_mem_nil,
      or_false] at hm
    rcases hm with rfl | rfl | rfl | rfl | rfl | rfl
    · simp only [addFirewallAddress]
      cases (params.value "address").isString
      · exact exactlyOne_set_error _
      · exact exactlyOne_set_result _
    · exact addFirewallAddresses_exactlyOne srv params s
    · simp only [removeFirewallAddress]
      cases (params.value "address").isString
      · exact exactlyOne_set_error _
      · exact exactlyOne_set_result _
    · show (setFirewallMode srv params [] s).1.exactlyOneOfResultError
      rw [setFirewallMode_eq]
      split_ifs
      · exact exactlyOne_set_result _
      · exact exactlyOne_set_error _
      · exact exactlyOne_set_error _
    · exact exactlyOne_set_result _
    · exact exactlyOne_set_result _
  simp only [registeredMethods, List.mem_append, List.mem_cons, List.mem_singleton,
    List.not_mem_nil, or_false] at hm
  rcases hm with (rfl | hm) | rfl | rfl | rfl | rfl | rfl | rfl | rfl | rfl | rfl
  · exact exactlyOne_set_result _
  · cases bNoFirewall
    · exact hfw m (by simpa using hm) params s
    · simp at hm
  · exact exactlyOne_set_result _
  · exact exactlyOne_set_result _
  · exact exactlyOne_set_result _
  · simp only [setServerName]
    cases (params.value "serverName").isString
    · exact exactlyOne_set_error _
    · exact exactlyOne_set_result _
  · simp only [setWelcomeMessage]
    cases (params.value "welcomeMessage").isString
    · exact exactlyOne_set_error _
    · exact exactlyOne_set_result _
  · simp only [setRecordingDirectory]
    cases (params.value "recordingDirectory").isString
    · exact exactlyOne_set_error _
    · exact exactlyOne_set_result _
  · exact exactlyOne_set_result _
  · exact exactlyOne_set_result _
  · exact exactlyOne_set_result _

/-- C6 at the handler of `setFirewallMode` on the request `{mode: 7}`. -/
theorem registeredMethods_exactlyOne_witness :
    (("jamulusserver/setFirewallMode", setFirewallMode recorder) ∈
        registeredMethods recorder plainExternals false)
    ∧ (setFirewallMode recorder [("mode", double 7)] [] []).1.exactlyOneOfResultError :=
  ⟨by simp [registeredMethods, firewallMethods],
   registeredMethods_exactlyOne recorder plainExternals false
     ("jamulusserver/setFirewallMode", setFirewallMode recorder)
     (by simp [registeredMethods, firewallMethods]) [("mode", double 7)] []⟩

end CServerRpc

/-! ### Handlers with one string parameter -/

namespace CServerRpc

open QJsonValue

/-- C7: each of `addFirewallAddress` (`address`), `removeFirewallAddress`
(`address`), `setServerName` (`serverName`), `setWelcomeMessage`
(`welcomeMessage`) and `setRecordingDirectory` (`recordingDirectory`) answers
the InvalidParams error and leaves the server untouched when its field is
absent or not a string, and on a string `s` calls its server operation once,
with `s`, and answers "ok" ("acknowledged" for `setRecordingDirectory`). -/
theorem singleStringHandlers_contract :
    SingleStringContract (fun srv => addFirewallAddress srv) "address"
      (fun srv => srv.fwAdd) ServerCall.fwAdd "Invalid params: address is not a string" "ok"
    ∧ SingleStringContract (fun srv => removeFirewallAddress srv) "address"
      (fun srv => srv.fwRemove) ServerCall.fwRemove "Invalid params: address is not a string" "ok"
    ∧ SingleStringContract (fun srv => setServerName srv) "serverName"
      (fun srv => srv.SetServerName) ServerCall.SetServerName
      "Invalid params: serverName is not a string" "ok"
    ∧ SingleStringContract (fun srv => setWelcomeMessage srv) "welcomeMessage"
      (fun srv => srv.SetWelcomeMessage) ServerCall.SetWelcomeMessage
      "Invalid params: welcomeMessage is not a string" "ok"
    ∧ SingleStringContract (fun srv => setRecordingDirectory srv) "recordingDirectory"
      (fun srv => srv.SetRecordingDir) ServerCall.SetRecordingDir
      "Invalid params: recordingDirectory is not a string" "acknowledged" := by
  refine ⟨?_, ?_, ?_, ?_, ?_⟩
  · refine ⟨fun σ srv params response s => ⟨fun h => ?_, fun str h => ?_⟩,
      fun params response calls => ⟨fun h => ?_, fun str h => ?_⟩⟩
    · simp [addFirewallAddress, h]
    · simp [addFirewallAddress, h, isString, toQString]
    · simp [addFirewallAddress, h]
    · simp [addFirewallAddress, h, isString, toQString, recorder]
  · refine ⟨fun σ srv params response s => ⟨fun h => ?_, fun str h => ?_⟩,
      fun params response calls => ⟨fun h => ?_, fun str h => ?_⟩⟩
    · simp [removeFirewallAddress, h]
    · simp [removeFirewallAddress, h, isString, toQString]
    · simp [removeFirewallAddress, h]
    · simp [removeFirewallAddress, h, isString, toQString, recorder]
  · refine ⟨fun σ srv params response s => ⟨fun h => ?_, fun str h => ?_⟩,
      fun params response calls => ⟨fun h => ?_, fun str h => ?_⟩⟩
    · simp [setServerName, h]
    · simp [setServerName, h, isString, toQString]
    · simp [setServerName, h]
    · simp [setServerName, h, isString, toQString, recorder]
  · refine ⟨fun σ srv params response s => ⟨fun h => ?_, fun str h => ?_⟩,
      fun params response calls => ⟨fun h => ?_, fun str h => ?_⟩⟩
    · simp [setWelcomeMessage, h]
    · simp [setWelcomeMessage, h, isString, toQString]
    · simp [setWelcomeMessage, h]
    · simp [setWelcomeMessage, h, isString, toQString, recorder]
  · refine ⟨fun σ srv params response s => ⟨fun h => ?_, fun str h => ?_⟩,
      fun params response calls => ⟨fun h => ?_, fun str h => ?_⟩⟩
    · simp [setRecordingDirectory, h]
    · simp [setRecordingDirectory, h, isString, toQString]
    · simp [setRecordingDirectory, h]
    · simp [setRecordingDirectory, h, isString, toQString, recorder]

/-- C7 at `setRecordingDirectory`: with no `recordingDirectory` in the request
no call reaches the server; with the number 5 the same; with the string
"/tmp/rec" the one call is `SetRecordingDir "/tmp/rec"` and the answer is
"acknowledged". -/
theorem singleStringHandlers_contract_witness :
    (setRecordingDirectory recorder [] [] []).2 = []
    ∧ (setRecordingDirectory recorder [("recordingDirectory", double 5)] [] []).2 = []
    ∧ setRecordingDirectory recorder [("recordingDirectory", string "/tmp/rec")] [] []
        = ([("result", string "acknowledged")], [ServerCall.SetRecordingDir "/tmp/rec"]) :=
  ⟨((singleStringHandlers_contract.2.2.2.2).2 [] [] []).1 rfl,
   ((singleStringHandlers_contract.2.2.2.2).2 [("recordingDirectory", double 5)] [] []).1 rfl,
   ((singleStringHandlers_contract.2.2.2.2).1 _ recorder
      [("recordingDirectory", string "/tmp/rec")] [] []).2 "/tmp/rec" rfl⟩

end CServerRpc

/-! ### The event logger -/

namespace CServerLogging

/-- `QString::number` writes the decimal representation. -/
theorem number_eq_repr (n : Int) : QString.number n = Int.repr n := by
  cases n <;> rfl

/-- C8: `AddNewConnection` and `AddServerStopped` always append their record
to the console and keep the flag; the file is unchanged while logging is not
enabled, and gets the record and one newline appended when it is enabled; the
records are `<time>\tCONNECT\t<address>\tconnected (<count>)` and
`<time>\tIDLE`; three calls in a row with logging enabled leave the file as
the contents before followed by the three lines in call order. -/
theorem AddNewConnection_AddServerStopped_sinks (toString : CHostAddress → String) :
    (∀ (t : String) (log : CServerLogging) (a : CHostAddress) (n : Int),
      AddNewConnection toString t log a n =
        ⟨log.bDoLogging,
         if log.bDoLogging = true then
           log.File ++ (t ++ "\tCONNECT\t" ++ toString a ++ "\tconnected (" ++ Int.repr n ++ ")")
             ++ "\n"
         else log.File,
         log.console ++ [t ++ "\tCONNECT\t" ++ toString a ++ "\tconnected (" ++ Int.repr n ++ ")"]⟩)
    ∧ (∀ (t : String) (log : CServerLogging),
      AddServerStopped t log =
        ⟨log.bDoLogging,
         if log.bDoLogging = true then log.File ++ (t ++ "\tIDLE") ++ "\n" else log.File,
         log.console ++ [t ++ "\tIDLE"]⟩)
    ∧ (∀ (log : CServerLogging) (c1 c2 c3 : LogCall),
      ((c3.run toString (c2.run toString (c1.run toString log))).File =
        if log.bDoLogging = true then
          log.File ++ c1.record toString ++ "\n" ++ c2.record toString ++ "\n"
            ++ c3.record toString ++ "\n"
        else log.File)
      ∧ (c3.run toString (c2.run toString (c1.run toString log))).console =
        log.console ++ [c1.record toString, c2.record toString, c3.record toString]) := by
  have hconn : ∀ (t : String) (log : CServerLogging) (a : CHostAddress) (n : Int),
      AddNewConnection toString t log a n =
        ⟨log.bDoLogging,
         if log.bDoLogging = true then
           log.File ++ (t ++ "\tCONNECT\t" ++ toString a ++ "\tconnected (" ++ Int.repr n ++ ")")
             ++ "\n"
         else log.File,
         log.console ++ [t ++ "\tCONNECT\t" ++ toString a ++ "\tconnected (" ++ Int.repr n ++ ")"]⟩ := by
    intro t log a n
    rcases log with ⟨b, f, c⟩
    cases b <;> simp [AddNewConnection, qInfo, operatorShiftLeft, number_eq_repr]
  have hidle : ∀ (t : String) (log : CServerLogging),
      AddServerStopped t log =
        ⟨log.bDoLogging,
         if log.bDoLogging = true then log.File ++ (t ++ "\tIDLE") ++ "\n" else log.File,
         log.console ++ [t ++ "\tIDLE"]⟩ := by
    intro t log
    rcases log with ⟨b, f, c⟩
    cases b <;> simp [AddServerStopped, qInfo, operatorShiftLeft]
  have hrun : ∀ (log : CServerLogging) (c : LogCall),
      c.run toString log =
        ⟨log.bDoLogging,
         if log.bDoLogging = true then log.File ++ c.record toString ++ "\n" else log.File,
         log.console ++ [c.record toString]⟩ := by
    intro log c
    cases c with
    | AddNewConnection t a n => simp only [LogCall.run, LogCall.record, hconn]
    | AddServerStopped t => simp only [LogCall.run, LogCall.record, hidle]
  refine ⟨hconn, hidle, ?_⟩
  intro log c1 c2 c3
  rcases log with ⟨b, f, c⟩
  cases b <;> simp [hrun]

end CServerLogging

namespace CServerLogging

/-- C8 on concrete calls: a logger that was never activated prints the CONNECT
record and writes nothing; an enabled logger holding one earlier line gets the
three lines of a connect, an idle and a connect, in that order. -/
theorem AddNewConnection_AddServerStopped_sinks_witness :
    AddNewConnection (fun _ => "10.0.0.1:22124") "2024-05-01 10:00:00" ⟨false, "", []⟩
        ⟨QHostAddress.IPv4 167772161, 22124⟩ 1
      = ⟨false, "", ["2024-05-01 10:00:00\tCONNECT\t10.0.0.1:22124\tconnected (1)"]⟩
    ∧ (LogCall.run (fun _ => "10.0.0.1:22124")
        (LogCall.run (fun _ => "10.0.0.1:22124")
          (LogCall.run (fun _ => "10.0.0.1:22124") ⟨true, "old line\n", []⟩
            (LogCall.AddNewConnection "2024-05-01 10:00:00" ⟨QHostAddress.IPv4 167772161, 22124⟩ 1))
          (LogCall.AddServerStopped "2024-05-01 10:00:07"))
        (LogCall.AddNewConnection "2024-05-01 10:00:09" ⟨QHostAddress.IPv4 167772161, 22124⟩ 2)).File
      = "old line\n2024-05-01 10:00:00\tCONNECT\t10.0.0.1:22124\tconnected (1)\n2024-05-01 10:00:07\tIDLE\n2024-05-01 10:00:09\tCONNECT\t10.0.0.1:22124\tconnected (2)\n" := by
  refine ⟨?_, ?_⟩
  · rw [(AddNewConnection_AddServerStopped_sinks (fun _ => "10.0.0.1:22124")).1]
    decide
  · rw [((AddNewConnection_AddServerStopped_sinks (fun _ => "10.0.0.1:22124")).2.2 _ _ _ _).1]
    decide

/-- No character of the image of a character is a tab, a newline or a
carriage return. -/
theorem escapeChar_framing (c d : Char) (hd : d ∈ escapeChar c) :
    d ≠ '\t' ∧ d ≠ '\n' ∧ d ≠ '\r' := by
  unfold escapeChar at hd
  split_ifs at hd with h1 h2 h3
  · simp at hd; subst hd; decide
  · simp at hd; subst hd; decide
  · simp at hd; rcases hd with rfl | rfl <;> decide
  · simp at hd
    subst hd
    simp only [not_or] at h1
    exact ⟨h1.2.2, h1.1, h1.2.1⟩

/-- The sanitized name holds no tab, newline or carriage return. -/
theorem sanitizedName_framing (Name : String) (d : Char) (hd : d ∈ (sanitizedName Name).data) :
    d ≠ '\t' ∧ d ≠ '\n' ∧ d ≠ '\r' := by
  rw [sanitizedName_data, List.mem_flatMap] at hd
  obtain ⟨c, _, hc⟩ := hd
  exact escapeChar_framing c d hc

/-- What `AddChannelInfoChanged` does: nothing while logging is not enabled,
the CHANNEL record on both sinks when it is. -/
theorem AddChannelInfoChanged_eq (toString : CHostAddress → String) (t : String)
    (log : CServerLogging) (channel : CChannel) :
    AddChannelInfoChanged toString t log channel =
      if log.bDoLogging = true then
        ⟨true,
         log.File ++ (t ++ "\tCHANNEL\t" ++ toString channel.Address ++ "\t"
           ++ sanitizedName channel.Name) ++ "\n",
         log.console ++ [t ++ "\tCHANNEL\t" ++ toString channel.Address ++ "\t"
           ++ sanitizedName channel.Name]⟩
      else log := by
  rcases log with ⟨b, f, c⟩
  cases b <;> simp [AddChannelInfoChanged, qInfo, operatorShiftLeft]

/-- C9: with logging enabled and a time stamp and an address text free of
tab, newline and carriage return, the line `AddChannelInfoChanged` hands to the
console and the file, for any channel name, holds no newline, no carriage
return and exactly three tabs. -/
theorem AddChannelInfoChanged_framing (toString : CHostAddress → String) (t : String)
    (log : CServerLogging) (channel : CChannel) (hlog : log.bDoLogging = true)
    (ht : ∀ d ∈ t.data, d ≠ '\t' ∧ d ≠ '\n' ∧ d ≠ '\r')
    (ha : ∀ d ∈ (toString channel.Address).data, d ≠ '\t' ∧ d ≠ '\n' ∧ d ≠ '\r') :
    ∃ line : String,
      (AddChannelInfoChanged toString t log channel).console = log.console ++ [line]
      ∧ (AddChannelInfoChanged toString t log channel).File = log.File ++ line ++ "\n"
      ∧ line = t ++ "\tCHANNEL\t" ++ toString channel.Address ++ "\t"
          ++ sanitizedName channel.Name
      ∧ '\n' ∉ line.data ∧ '\r' ∉ line.data ∧ line.data.count '\t' = 3 := by
  refine ⟨t ++ "\tCHANNEL\t" ++ toString channel.Address ++ "\t" ++ sanitizedName channel.Name,
    ?_, ?_, rfl, ?_, ?_, ?_⟩
  · rw [AddChannelInfoChanged_eq, if_pos hlog]
  · rw [AddChannelInfoChanged_eq, if_pos hlog]
  · simp only [String.data_append, List.mem_append, not_or]
    refine ⟨⟨⟨⟨fun h => (ht _ h).2.1 rfl, by decide⟩, fun h => (ha _ h).2.1 rfl⟩, by decide⟩,
      fun h => (sanitizedName_framing _ _ h).2.1 rfl⟩
  · simp only [String.data_append, List.mem_append, not_or]
    refine ⟨⟨⟨⟨fun h => (ht _ h).2.2 rfl, by decide⟩, fun h => (ha _ h).2.2 rfl⟩, by decide⟩,
      fun h => (sanitizedName_framing _ _ h).2.2 rfl⟩
  · have h1 : t.data.count '\t' = 0 := List.count_eq_zero.mpr (fun h => (ht _ h).1 rfl)
    have h2 : (toString channel.Address).data.count '\t' = 0 :=
      List.count_eq_zero.mpr (fun h => (ha _ h).1 rfl)
    have h3 : (sanitizedName channel.Name).data.count '\t' = 0 :=
      List.count_eq_zero.mpr (fun h => (sanitizedName_framing _ _ h).1 rfl)
    have h4 : ("\tCHANNEL\t" : String).data.count '\t' = 2 := by decide
    have h5 : ("\t" : String).data.count '\t' = 1 := by decide
    simp only [String.data_append, List.count_append, h1, h2, h3, h4, h5]

/-- C9 on a channel name holding a tab, a newline, a carriage return, a quote
and a backslash. -/
theorem AddChannelInfoChanged_framing_witness :
    ∃ line : String,
      (AddChannelInfoChanged (fun _ => "10.0.0.1:22124") "2024-05-01 10:00:00"
          ⟨true, "", []⟩ ⟨⟨QHostAddress.IPv4 167772161, 22124⟩, "a\tb\nc\rd\"e\\f"⟩).console
        = [] ++ [line]
      ∧ (AddChannelInfoChanged (fun _ => "10.0.0.1:22124") "2024-05-01 10:00:00"
          ⟨true, "", []⟩ ⟨⟨QHostAddress.IPv4 167772161, 22124⟩, "a\tb\nc\rd\"e\\f"⟩).File
        = "" ++ line ++ "\n"
      ∧ line = "2024-05-01 10:00:00" ++ "\tCHANNEL\t" ++ "10.0.0.1:22124" ++ "\t"
          ++ sanitizedName "a\tb\nc\rd\"e\\f"
      ∧ '\n' ∉ line.data ∧ '\r' ∉ line.data ∧ line.data.count '\t' = 3 :=
  AddChannelInfoChanged_framing (fun _ => "10.0.0.1:22124") "2024-05-01 10:00:00"
    ⟨true, "", []⟩ ⟨⟨QHostAddress.IPv4 167772161, 22124⟩, "a\tb\nc\rd\"e\\f"⟩ rfl
    (by decide) (by decide)

/-- C10: while logging is not enabled `AddChannelInfoChanged` changes nothing,
neither the console nor the file; when logging is enabled it appends the
CHANNEL record to the console, and the record and a newline to the file. -/
theorem AddChannelInfoChanged_sinks (toString : CHostAddress → String) (t : String)
    (channel : CChannel) :
    (∀ log : CServerLogging, log.bDoLogging = false →
      AddChannelInfoChanged toString t log channel = log)
    ∧ (∀ log : CServerLogging, log.bDoLogging = true →
      (AddChannelInfoChanged toString t log channel).console =
        log.console ++ [t ++ "\tCHANNEL\t" ++ toString channel.Address ++ "\t"
          ++ sanitizedName channel.Name]
      ∧ (AddChannelInfoChanged toString t log channel).File =
        log.File ++ (t ++ "\tCHANNEL\t" ++ toString channel.Address ++ "\t"
          ++ sanitizedName channel.Name) ++ "\n"
      ∧ (AddChannelInfoChanged toString t log channel).bDoLogging = true) := by
  refine ⟨fun log h => ?_, fun log h => ?_⟩
  · rw [AddChannelInfoChanged_eq]
    simp [h]
  · rw [AddChannelInfoChanged_eq, if_pos h]
    exact ⟨rfl, rfl, rfl⟩

/-- C10 on a logger that was never activated and on an enabled one. -/
theorem AddChannelInfoChanged_sinks_witness :
    AddChannelInfoChanged (fun _ => "10.0.0.1:22124") "2024-05-01 10:00:00"
        ⟨false, "", ["earlier"]⟩ ⟨⟨QHostAddress.IPv4 167772161, 22124⟩, "ann"⟩
      = ⟨false, "", ["earlier"]⟩
    ∧ (AddChannelInfoChanged (fun _ => "10.0.0.1:22124") "2024-05-01 10:00:00"
        ⟨true, "", ["earlier"]⟩ ⟨⟨QHostAddress.IPv4 167772161, 22124⟩, "ann"⟩).console
      = ["earlier", "2024-05-01 10:00:00\tCHANNEL\t10.0.0.1:22124\tann"] :=
  ⟨(AddChannelInfoChanged_sinks (fun _ => "10.0.0.1:22124") "2024-05-01 10:00:00"
      ⟨⟨QHostAddress.IPv4 167772161, 22124⟩, "ann"⟩).1 ⟨false, "", ["earlier"]⟩ rfl,
   ((AddChannelInfoChanged_sinks (fun _ => "10.0.0.1:22124") "2024-05-01 10:00:00"
      ⟨⟨QHostAddress.IPv4 167772161, 22124⟩, "ann"⟩).2 ⟨true, "", ["earlier"]⟩ rfl).1⟩

end CServerLogging

/-! ### Activation of the logger -/

namespace CServerLogging

/-- While `bDoLogging` is false, no event operation writes to the file or
sets the flag. -/
theorem runAll_disabled (toString : CHostAddress → String) :
    ∀ (events : List LogEvent) (log : CServerLogging), log.bDoLogging = false →
      (LogEvent.runAll toString log events).File = log.File
      ∧ (LogEvent.runAll toString log events).bDoLogging = false
  | [], log, h => ⟨rfl, h⟩
  | e :: rest, log, h => by
    have hstep : (e.run toString log).File = log.File
        ∧ (e.run toString log).bDoLogging = false := by
      rcases log with ⟨b, f, c⟩
      simp only at h
      subst h
      cases e with
      | call c =>
        cases c <;>
          simp [LogEvent.run, LogCall.run, AddNewConnection, AddServerStopped, qInfo,
            operatorShiftLeft]
      | AddChannelInfoChanged t channel => simp [LogEvent.run, AddChannelInfoChanged]
    have ih := runAll_disabled toString rest (e.run toString log) hstep.2
    simp only [LogEvent.runAll, List.foldl_cons] at ih ⊢
    exact ⟨ih.1.trans hstep.1, ih.2⟩

/-- C11 (as amended): on a logger whose `bDoLogging` is false (no earlier
`Start` succeeded), a `Start` whose file open fails leaves the flag false; any
sequence of `AddNewConnection`, `AddServerStopped` and `AddChannelInfoChanged`
calls after it writes nothing to the file and leaves the flag false; a later
`Start` whose open succeeds sets the flag. -/
theorem Start_failed_open_stays_disabled (toString : CHostAddress → String)
    (log : CServerLogging) (strLoggingFileName : String) (hlog : log.bDoLogging = false)
    (events : List LogEvent) :
    (log.Start strLoggingFileName false).bDoLogging = false
    ∧ (LogEvent.runAll toString (log.Start strLoggingFileName false) events).File = log.File
    ∧ (LogEvent.runAll toString (log.Start strLoggingFileName false) events).bDoLogging = false
    ∧ ∀ later : String,
        ((LogEvent.runAll toString (log.Start strLoggingFileName false) events).Start
          later true).bDoLogging = true := by
  have hs : log.Start strLoggingFileName false = log := by simp [Start]
  rw [hs]
  have h := runAll_disabled toString events log hlog
  exact ⟨hlog, h.1, h.2, fun later => by simp [Start]⟩

/-- The amended C11 on a freshly constructed logger: after a failed `Start`, a
connect, a channel change and an idle event leave the file empty. -/
theorem Start_failed_open_stays_disabled_witness :
    ctor.bDoLogging = false
    ∧ (LogEvent.runAll (fun _ => "10.0.0.1:22124") (ctor.Start "/no/such/dir/server.log" false)
        [LogEvent.call (LogCall.AddNewConnection "2024-05-01 10:00:00"
            ⟨QHostAddress.IPv4 167772161, 22124⟩ 1),
         LogEvent.AddChannelInfoChanged "2024-05-01 10:00:03"
            ⟨⟨QHostAddress.IPv4 167772161, 22124⟩, "ann"⟩,
         LogEvent.call (LogCall.AddServerStopped "2024-05-01 10:00:07")]).File = "" :=
  ⟨rfl,
   (Start_failed_open_stays_disabled (fun _ => "10.0.0.1:22124") ctor "/no/such/dir/server.log"
      rfl _).2.1⟩

/-- C11 (as stated) fails: after a `Start` that succeeded, a `Start` whose
file open fails leaves `bDoLogging` true, and a following
`AddChannelInfoChanged` is not skipped: its record reaches the console. -/
theorem Start_failed_open_keeps_flag :
    ((ctor.Start "server.log" true).Start "/no/such/dir/server.log" false).bDoLogging = true
    ∧ (AddChannelInfoChanged (fun _ => "10.0.0.1:22124") "2024-05-01 10:00:03"
        ((ctor.Start "server.log" true).Start "/no/such/dir/server.log" false)
        ⟨⟨QHostAddress.IPv4 167772161, 22124⟩, "ann"⟩).console
      = ["2024-05-01 10:00:03\tCHANNEL\t10.0.0.1:22124\tann"] := by
  refine ⟨by decide, by decide⟩

end CServerLogging

/-! ### Reading a sanitized name back -/

/-- A character other than the backslash is read as itself. -/
theorem unescapeChars_cons_of_ne (c : Char) (hc : c ≠ '\\') (l : List Char) :
    unescapeChars (c :: l) = c :: unescapeChars l := by
  cases l with
  | nil => simp [unescapeChars]
  | cons d rest => simp [unescapeChars, hc]

/-- A backslash and the character after it are read as that character. -/
theorem unescapeChars_escape (d : Char) (l : List Char) :
    unescapeChars ('\\' :: d :: l) = d :: unescapeChars l := by
  simp [unescapeChars]

/-- Reading the character-wise image of a name without newline, carriage
return and tab gives the name back. -/
theorem unescapeChars_flatMap_escapeChar :
    ∀ l : List Char, (∀ c ∈ l, c ≠ '\n' ∧ c ≠ '\r' ∧ c ≠ '\t') →
      unescapeChars (l.flatMap escapeChar) = l
  | [], _ => by simp [unescapeChars]
  | c :: cs, h => by
    have hc := h c (List.mem_cons_self _ _)
    have ih := unescapeChars_flatMap_escapeChar cs (fun d hd => h d (List.mem_cons_of_mem _ hd))
    rw [List.flatMap_cons]
    unfold escapeChar
    by_cases h4 : c = '\\'
    · subst h4
      simp only [(by decide : ¬ ('\\' = '\n' ∨ '\\' = '\r' ∨ '\\' = '\t')), if_false, if_true]
      rw [List.cons_append, List.cons_append, List.nil_append, unescapeChars_escape]
      exact congrArg _ ih
    · by_cases h5 : c = '"'
      · subst h5
        simp only [(by decide : ¬ ('"' = '\n' ∨ '"' = '\r' ∨ '"' = '\t')),
          (by decide : ¬ ('"' = '\\')), if_false, if_true]
        rw [List.cons_append, List.cons_append, List.nil_append, unescapeChars_escape]
        exact congrArg _ ih
      · have h123 : ¬ (c = '\n' ∨ c = '\r' ∨ c = '\t') := by
          rintro (e | e | e)
          · exact hc.1 e
          · exact hc.2.1 e
          · exact hc.2.2 e
        simp only [h123, h4, h5, if_false]
        rw [List.cons_append, List.nil_append, unescapeChars_cons_of_ne c h4]
        exact congrArg _ ih

/-- C12: on names without newline, carriage return and tab the sanitization of
`AddChannelInfoChanged` can be read back (a backslash stands for the character
after it), so two such names with equal sanitized forms are equal. -/
theorem sanitizedName_injective (a b : String)
    (ha : ∀ c ∈ a.data, c ≠ '\n' ∧ c ≠ '\r' ∧ c ≠ '\t')
    (hb : ∀ c ∈ b.data, c ≠ '\n' ∧ c ≠ '\r' ∧ c ≠ '\t') :
    unescapeChars (CServerLogging.sanitizedName a).data = a.data
    ∧ (CServerLogging.sanitizedName a = CServerLogging.sanitizedName b → a = b) := by
  have ra : unescapeChars (CServerLogging.sanitizedName a).data = a.data := by
    rw [sanitizedName_data]
    exact unescapeChars_flatMap_escapeChar a.data ha
  have rb : unescapeChars (CServerLogging.sanitizedName b).data = b.data := by
    rw [sanitizedName_data]
    exact unescapeChars_flatMap_escapeChar b.data hb
  refine ⟨ra, fun h => ?_⟩
  apply String.ext
  rw [← ra, ← rb, h]

/-- C12 on the names `say "hi"` and `say \"hi\"` (the second holds two
backslashes): both are read back from their sanitized forms, and since these
forms differ the names are told apart in the log. -/
theorem sanitizedName_injective_witness :
    unescapeChars (CServerLogging.sanitizedName "say \"hi\"").data = "say \"hi\"".data
    ∧ (CServerLogging.sanitizedName "say \"hi\"" = CServerLogging.sanitizedName "say \\\"hi\\\""
        → "say \"hi\"" = "say \\\"hi\\\"")
    ∧ CServerLogging.sanitizedName "say \"hi\"" ≠ CServerLogging.sanitizedName "say \\\"hi\\\"" :=
  ⟨(sanitizedName_injective "say \"hi\"" "say \\\"hi\\\"" (by decide) (by decide)).1,
   (sanitizedName_injective "say \"hi\"" "say \\\"hi\\\"" (by decide) (by decide)).2,
   by decide⟩

end Jamulus
